import Mathlib

/-!
# Verification of brpc's client-side SocketMap (src/brpc/socket_map.cpp)

A shallow embedding of the `SocketMap` registry: a mutex-guarded map from
`SocketMapKey` to `SingleConnection` entries, with `Insert`, `Find`,
`Remove`/`RemoveInternal`, `ListOrphans`, destructor-time diagnostics and
`Init`.

Modelling conventions:
* `SocketMapKey` and `SocketId` are abstracted to `Nat`; `INVALID_SOCKET_ID`
  is `(SocketId)-1` on `uint64_t`, i.e. `2^64 - 1`.
* The external `Socket` objects are a read-only environment
  `Socks : SocketId → SocketState`, giving each id its `Failed()`,
  `HCEnabled()` and whether `Socket::AddressFailedAsWell` can address it
  (`rc < 0` in the C++ when it cannot).
* The hash map `_map` is an association list; in-place mutation of a found
  entry is `mapUpdate`, `_map.erase` is `mapErase`, and `_map[key] = v` on an
  absent key appends the new pair (position in the list is irrelevant to any
  property proved here).
* Reloadable flags (`defer_close_second`) and the clock
  (`butil::cpuwide_time_us`) are passed as explicit arguments holding the
  value read once inside the operation, exactly where the C++ reads them.
* Reference-count traffic on sockets and the mutex are modelled as an event
  trace emitted in program order: `lock`/`unlock` for `_mutex`,
  `factoryCreate` for `SocketCreator::CreateSocket`, `releaseHC` for
  `ReleaseHCRelatedReference`, `releaseRef` for a `SocketUniquePtr` drop
  (`Socket::Dereference`), `releaseAdditional` for
  `ReleaseAdditionalReference`.  A `std::unique_lock` that is destroyed
  without an explicit `mu.unlock()` emits its `unlock` at the return point,
  after destructors of later-constructed locals (e.g. the `SocketUniquePtr
  ptr` in `Insert`) have run, matching C++ destruction order.
-/

abbrev SocketId := Nat

abbrev SocketMapKey := Nat

def INVALID_SOCKET_ID : SocketId := 2 ^ 64 - 1

/-- External view of one `Socket` object: the results of `Failed()`,
`HCEnabled()`, and whether `Socket::AddressFailedAsWell` succeeds on its id. -/
structure SocketState where
  failed : Bool
  hcEnabled : Bool
  addressable : Bool
  deriving DecidableEq, Repr

abbrev Socks := SocketId → SocketState

/-- `struct SingleConnection { int ref_count; Socket* socket; int64_t no_ref_us; }`.
The `Socket*` is represented by the socket's id. -/
structure SingleConnection where
  ref_count : Int
  socket : SocketId
  no_ref_us : Int
  deriving DecidableEq, Repr

/-- The protected `_map` of the registry. -/
abbrev SMap := List (SocketMapKey × SingleConnection)

/-- One observable action of an operation, in program order. -/
inductive Event where
  | lock
  | unlock
  | factoryCreate (id : SocketId)
  | releaseHC (id : SocketId)
  | releaseRef (id : SocketId)
  | releaseAdditional (id : SocketId)
  deriving DecidableEq, Repr

def Event.isRelease : Event → Bool
  | .releaseHC _ => true
  | .releaseRef _ => true
  | .releaseAdditional _ => true
  | _ => false

def Event.isFactoryCreate : Event → Bool
  | .factoryCreate _ => true
  | _ => false

def Event.isUnlock : Event → Bool
  | .unlock => true
  | _ => false

/-- Does this event drop a reference held on socket `s`? -/
def Event.isReleaseOf (e : Event) (s : SocketId) : Bool :=
  match e with
  | .releaseHC i => i == s
  | .releaseRef i => i == s
  | .releaseAdditional i => i == s
  | _ => false

/-- Number of reference drops on socket `s` in a trace. -/
def releasesOf (evs : List Event) (s : SocketId) : Nat :=
  (evs.filter (fun e => e.isReleaseOf s)).length

/-- Number of `CreateSocket` factory calls in a trace. -/
def factoryCalls (evs : List Event) : Nat :=
  (evs.filter Event.isFactoryCreate).length

/-- `true` iff no reference drop occurs before the mutex is first unlocked. -/
def noReleaseBeforeUnlock (evs : List Event) : Bool :=
  (evs.takeWhile (fun e => !e.isUnlock)).all (fun e => !e.isRelease)

/-- `_map.seek(key)`: the entry stored under `key`, if present. -/
def seek (m : SMap) (k : SocketMapKey) : Option SingleConnection :=
  match m with
  | [] => none
  | e :: rest => if e.1 == k then some e.2 else seek rest k

/-- `_map.erase(key)`. -/
def mapErase (m : SMap) (k : SocketMapKey) : SMap :=
  m.filter (fun e => e.1 != k)

/-- In-place mutation of the entry found under `key` (the C++ writes through
the `SingleConnection*` returned by `seek`). -/
def mapUpdate (m : SMap) (k : SocketMapKey) (sc : SingleConnection) : SMap :=
  m.map (fun e => if e.1 == k then (k, sc) else e)

/-- `SocketMap::ReleaseReference(Socket* s)`: release via
`ReleaseHCRelatedReference` when HC is enabled, else drop the extra
`SocketUniquePtr` reference held by the map. -/
def SocketMap.ReleaseReference (socks : Socks) (s : SocketId) : Event :=
  if (socks s).hcEnabled then Event.releaseHC s else Event.releaseRef s

/-- Result of `SocketMap::Insert`: the returned `int`, the value written to
`*id` (`none` when the C++ returns without writing it), the map after the
call, and the emitted events. -/
structure InsertResult where
  rc : Int
  id : Option SocketId
  map : SMap
  events : List Event
  deriving DecidableEq, Repr

/-- Second half of `SocketMap::Insert` (from `SocketId tmp_id;` on): create a
socket via the factory, address it, and install the new entry.  `m'` is the
map at that point (the permanently-failed entry, if any, already erased) and
`evs` the events emitted so far.  `factory` is the id `CreateSocket` would
produce, `none` when it fails. -/
def insertCreate (socks : Socks) (factory : Option SocketId) (m' : SMap)
    (key : SocketMapKey) (evs : List Event) : InsertResult :=
  match factory with
  | none =>
      -- CreateSocket failed: return -1; unique_lock unlocks at return.
      { rc := -1, id := none, map := m', events := evs ++ [Event.unlock] }
  | some tmp_id =>
      let evs := evs ++ [Event.factoryCreate tmp_id]
      let st := socks tmp_id
      if !st.addressable then
        -- AddressFailedAsWell returned rc < 0: ptr is empty, unlock at return.
        { rc := -1, id := none, map := m', events := evs ++ [Event.unlock] }
      else if st.failed && !st.hcEnabled then
        -- rc > 0 && !ptr->HCEnabled(): ptr's destructor drops its reference
        -- before the unique_lock unlocks (reverse construction order).
        { rc := -1, id := none, map := m',
          events := evs ++ [Event.releaseRef tmp_id, Event.unlock] }
      else
        -- SingleConnection new_sc = { 1, HC ? ptr.get() : ptr.release(), 0 };
        -- _map[key] = new_sc; *id = tmp_id; mu.unlock(); then, in the
        -- HC-enabled case, ptr's destructor drops the addressing reference.
        { rc := 0, id := some tmp_id,
          map := m' ++ [(key, { ref_count := 1, socket := tmp_id, no_ref_us := 0 })],
          events := evs ++ [Event.unlock] ++
            (if st.hcEnabled then [Event.releaseRef tmp_id] else []) }

/-- `SocketMap::Insert(key, id, ...)`. -/
def SocketMap.Insert (socks : Socks) (factory : Option SocketId) (m : SMap)
    (key : SocketMapKey) : InsertResult :=
  match seek m key with
  | some sc =>
      let st := socks sc.socket
      if !st.failed || st.hcEnabled then
        { rc := 0, id := some sc.socket,
          map := mapUpdate m key { sc with ref_count := sc.ref_count + 1 },
          events := [Event.lock, Event.unlock] }
      else
        -- A socket w/o HC is failed (permanently), replace it.
        insertCreate socks factory (mapErase m key) key
          [Event.lock, SocketMap.ReleaseReference socks sc.socket]
  | none => insertCreate socks factory m key [Event.lock]

/-- Result of `SocketMap::RemoveInternal`: the map after the call and the
emitted events. -/
structure RemoveResult where
  map : SMap
  events : List Event
  deriving DecidableEq, Repr

/-- `SocketMap::RemoveInternal(key, expected_id, remove_orphan)`.
`defer_close_second` is the value of the reloadable flag read once inside the
call; `now` is `butil::cpuwide_time_us()` at the stamping point. -/
def SocketMap.RemoveInternal (socks : Socks) (m : SMap) (key : SocketMapKey)
    (expected_id : SocketId) (remove_orphan : Bool)
    (defer_close_second : Int) (now : Int) : RemoveResult :=
  match seek m key with
  | none => { map := m, events := [Event.lock, Event.unlock] }
  | some sc0 =>
      let sc :=
        if !remove_orphan &&
            (expected_id == INVALID_SOCKET_ID || expected_id == sc0.socket) then
          { sc0 with ref_count := sc0.ref_count - 1 }
        else sc0
      if sc.ref_count == 0 then
        if !remove_orphan && defer_close_second > 0 then
          -- Start count down on this Socket.
          { map := mapUpdate m key { sc with no_ref_us := now },
            events := [Event.lock, Event.unlock] }
        else
          { map := mapErase m key,
            events := [Event.lock, Event.unlock,
              Event.releaseAdditional sc.socket,
              SocketMap.ReleaseReference socks sc.socket] }
      else
        { map := mapUpdate m key sc, events := [Event.lock, Event.unlock] }

/-- `SocketMap::Remove(key, expected_id)`. -/
def SocketMap.Remove (socks : Socks) (m : SMap) (key : SocketMapKey)
    (expected_id : SocketId) (defer_close_second : Int) (now : Int) :
    RemoveResult :=
  SocketMap.RemoveInternal socks m key expected_id false defer_close_second now

/-- `SocketMap::Find(key, id)`: `(return value, value written to *id)`. -/
def SocketMap.Find (m : SMap) (key : SocketMapKey) : Int × Option SocketId :=
  match seek m key with
  | some sc => (0, some sc.socket)
  | none => (-1, none)

/-- `SocketMap::List(std::vector<SocketId>*)`. -/
def SocketMap.ListIds (m : SMap) : List SocketId :=
  m.map (fun e => e.2.socket)

/-- `SocketMap::ListOrphans(defer_us, out)`: keys whose entry has
`ref_count == 0` and `now - no_ref_us >= defer_us`. -/
def SocketMap.ListOrphans (defer_us now : Int) (m : SMap) : List SocketMapKey :=
  (m.filter (fun e =>
      e.2.ref_count == 0 && decide (now - e.2.no_ref_us ≥ defer_us))).map
    (fun e => e.1)

/-- The entries streamed into the error diagnostic by `SocketMap::~SocketMap`:
those with `(!socket->Failed() || socket->HCEnabled()) && ref_count != 0`. -/
def SocketMap.destructorLogged (socks : Socks) (m : SMap) : SMap :=
  m.filter (fun e =>
    (!(socks e.2.socket).failed || (socks e.2.socket).hcEnabled) &&
      e.2.ref_count != 0)

/-! ## Init -/

/-- The slice of `SocketMapOptions` that `Init` inspects.  `socket_creator`
is `some f` for a non-null factory (`f` is an opaque tag). -/
structure SocketMapOptions where
  socket_creator : Option Nat
  idle_timeout_second_dynamic : Bool
  idle_timeout_second : Int
  deriving DecidableEq, Repr

/-- The registry state that `Init` reads and writes: the stored `_options`
(of which only the fields above matter here) and `_has_close_idle_thread`. -/
structure SMState where
  options : SocketMapOptions
  has_close_idle_thread : Bool
  deriving DecidableEq, Repr

/-- A fresh `SocketMap`: default-constructed `_options` (null creator). -/
def SMState.fresh : SMState :=
  { options := { socket_creator := none,
                 idle_timeout_second_dynamic := false,
                 idle_timeout_second := 0 },
    has_close_idle_thread := false }

/-- The distinct exit points of `SocketMap::Init` (each `return -1` has its
own log message; `ok` is `return 0`). -/
inductive InitResult where
  | ok
  | alreadyInitialized
  | missingFactory
  | mapInitFailed
  | spawnFailed
  deriving DecidableEq, Repr

/-- `SocketMap::Init(options)`.  `mapOk` is whether `_map.init` succeeds and
`spawnOk` whether `bthread_start_background` succeeds (external outcomes).
Note that `_options = options` runs before the null-factory check, so a
failed `_map.init` or spawn leaves a non-null `_options.socket_creator`
behind. -/
def SocketMap.Init (st : SMState) (opts : SocketMapOptions)
    (mapOk spawnOk : Bool) : InitResult × SMState :=
  if (st.options.socket_creator).isSome then
    (InitResult.alreadyInitialized, st)
  else
    let st1 : SMState := { st with options := opts }
    if (st1.options.socket_creator).isNone then
      (InitResult.missingFactory, st1)
    else if !mapOk then
      (InitResult.mapInitFailed, st1)
    else if opts.idle_timeout_second_dynamic || opts.idle_timeout_second > 0 then
      if !spawnOk then
        (InitResult.spawnFailed, st1)
      else
        (InitResult.ok, { st1 with has_close_idle_thread := true })
    else
      (InitResult.ok, st1)

/-! ## Helper lemmas about the map operations -/

theorem seek_mem {m : SMap} {k : SocketMapKey} {sc : SingleConnection}
    (h : seek m k = some sc) : (k, sc) ∈ m := by
  induction m with
  | nil => simp [seek] at h
  | cons e rest ih =>
    rw [seek] at h
    by_cases hk : e.1 = k
    · rw [if_pos (by simp [hk])] at h
      obtain ⟨a, b⟩ := e
      simp only at h hk
      subst hk
      simp only [Option.some.injEq] at h
      subst h
      exact List.mem_cons_self _ _
    · rw [if_neg (by simp [hk])] at h
      exact List.mem_cons_of_mem _ (ih h)

theorem mem_mapUpdate {m : SMap} {k : SocketMapKey} {sc : SingleConnection}
    {e : SocketMapKey × SingleConnection} (h : e ∈ mapUpdate m k sc) :
    e ∈ m ∨ e = (k, sc) := by
  rw [mapUpdate, List.mem_map] at h
  obtain ⟨a, ha, hae⟩ := h
  by_cases hk : a.1 = k
  · rw [if_pos (by simp [hk])] at hae
    exact Or.inr hae.symm
  · rw [if_neg (by simp [hk])] at hae
    exact Or.inl (hae ▸ ha)

theorem seek_mapUpdate_self {m : SMap} {k : SocketMapKey}
    {sc0 : SingleConnection} (sc : SingleConnection)
    (h : seek m k = some sc0) : seek (mapUpdate m k sc) k = some sc := by
  induction m with
  | nil => simp [seek] at h
  | cons e rest ih =>
    rw [seek] at h
    by_cases hk : e.1 = k
    · simp [mapUpdate, seek, hk]
    · rw [if_neg (by simp [hk])] at h
      simpa [mapUpdate, seek, hk] using ih h

theorem seek_mapUpdate_ne {m : SMap} {k k' : SocketMapKey}
    (sc : SingleConnection) (hne : k' ≠ k) :
    seek (mapUpdate m k sc) k' = seek m k' := by
  induction m with
  | nil => rfl
  | cons e rest ih =>
    simp only [mapUpdate, List.map_cons] at ih ⊢
    by_cases hk : e.1 = k
    · rw [if_pos (by simp [hk])]
      rw [seek, seek, if_neg (by simp; exact fun h => hne h.symm),
        if_neg (by simp [hk]; exact fun h => hne h.symm)]
      exact ih
    · rw [if_neg (by simp [hk])]
      rw [seek, seek]
      by_cases h2 : e.1 = k'
      · rw [if_pos (by simp [h2]), if_pos (by simp [h2])]
      · rw [if_neg (by simp [h2]), if_neg (by simp [h2])]
        exact ih

theorem seek_mapErase_self (m : SMap) (k : SocketMapKey) :
    seek (mapErase m k) k = none := by
  induction m with
  | nil => rfl
  | cons e rest ih =>
    simp only [mapErase, List.filter] at ih ⊢
    by_cases hk : e.1 = k
    · rw [show (e.1 != k) = false by simp [bne, hk]]
      exact ih
    · rw [show (e.1 != k) = true by simp [bne, hk]]
      rw [seek, if_neg (by simp [hk])]
      exact ih

theorem mem_mapErase {m : SMap} {k : SocketMapKey}
    {e : SocketMapKey × SingleConnection} (h : e ∈ mapErase m k) : e ∈ m :=
  List.mem_of_mem_filter h

theorem seek_append_of_none {m : SMap} {k : SocketMapKey} (l : SMap)
    (h : seek m k = none) : seek (m ++ l) k = seek l k := by
  induction m with
  | nil => rfl
  | cons e rest ih =>
    rw [seek] at h
    by_cases hk : e.1 = k
    · rw [if_pos (by simp [hk])] at h
      exact absurd h (by simp)
    · rw [if_neg (by simp [hk])] at h
      rw [List.cons_append, seek, if_neg (by simp [hk])]
      exact ih h

/-! ## C9: Find ignores the socket's failure and health-check state -/

/-- C9: `Find(key)` returns success and the entry's socket id for any present
key.  `SocketMap.Find` does not take the socket environment at all — it never
inspects `Failed()`/`HCEnabled()` — so in particular an entry holding a
permanently failed socket is still handed out rather than reported NotFound. -/
theorem find_returns_present_id (m : SMap) (key : SocketMapKey)
    (sc : SingleConnection) (h : seek m key = some sc) :
    SocketMap.Find m key = (0, some sc.socket) := by
  simp [SocketMap.Find, h]

/-- Witness for C9: a map whose single entry would be permanently failed in
any environment marking socket 5 failed without HC; `Find` still returns it. -/
theorem find_returns_present_id_witness :
    seek [(1, { ref_count := 0, socket := 5, no_ref_us := 0 })] 1 =
      some { ref_count := 0, socket := 5, no_ref_us := 0 } ∧
    SocketMap.Find [(1, { ref_count := 0, socket := 5, no_ref_us := 0 })] 1 =
      (0, some 5) :=
  ⟨by rfl, find_returns_present_id _ _ _ (by rfl)⟩

/-! ## C7: ListOrphans emits exactly the orphaned keys -/

/-- C7: `ListOrphans(defer_us, out)` emits exactly the keys whose entry has
`ref_count == 0` and `now - no_ref_us ≥ defer_us`.  The function is pure: it
takes the map and returns only the key list, so it modifies neither the map
nor any entry. -/
theorem listOrphans_mem_iff (defer_us now : Int) (m : SMap)
    (k : SocketMapKey) :
    k ∈ SocketMap.ListOrphans defer_us now m ↔
      ∃ sc : SingleConnection, (k, sc) ∈ m ∧ sc.ref_count = 0 ∧
        now - sc.no_ref_us ≥ defer_us := by
  simp only [SocketMap.ListOrphans, List.mem_map, List.mem_filter,
    Bool.and_eq_true, beq_iff_eq, decide_eq_true_eq]
  constructor
  · rintro ⟨⟨k', sc⟩, ⟨hm, h1, h2⟩, rfl⟩
    exact ⟨sc, hm, h1, h2⟩
  · rintro ⟨sc, hm, h1, h2⟩
    exact ⟨(k, sc), ⟨hm, h1, h2⟩, rfl⟩

/-! ## C3: Insert on a live entry shares the existing socket -/

/-- C3: when the key's entry holds a socket that is not permanently dead
(`!Failed() || HCEnabled()`), `Insert` increments `ref_count` by one, returns
the existing socket id with no factory call, and a second consecutive
`Insert` (under any factory) returns the same SocketId again. -/
theorem insert_live_shares_socket (socks : Socks)
    (factory factory2 : Option SocketId) (m : SMap) (key : SocketMapKey)
    (sc : SingleConnection) (hseek : seek m key = some sc)
    (hlive : (!(socks sc.socket).failed || (socks sc.socket).hcEnabled) = true) :
    (SocketMap.Insert socks factory m key).rc = 0 ∧
    (SocketMap.Insert socks factory m key).id = some sc.socket ∧
    seek (SocketMap.Insert socks factory m key).map key =
      some { sc with ref_count := sc.ref_count + 1 } ∧
    factoryCalls (SocketMap.Insert socks factory m key).events = 0 ∧
    (SocketMap.Insert socks factory2
        (SocketMap.Insert socks factory m key).map key).id = some sc.socket := by
  have h1 : SocketMap.Insert socks factory m key =
      { rc := 0, id := some sc.socket,
        map := mapUpdate m key { sc with ref_count := sc.ref_count + 1 },
        events := [Event.lock, Event.unlock] } := by
    rw [SocketMap.Insert, hseek]
    simp only [hlive, if_pos]
  have hseek2 : seek (SocketMap.Insert socks factory m key).map key =
      some { sc with ref_count := sc.ref_count + 1 } := by
    rw [h1]
    exact seek_mapUpdate_self _ hseek
  refine ⟨by rw [h1], by rw [h1], hseek2, by rw [h1]; rfl, ?_⟩
  rw [SocketMap.Insert, hseek2]
  simp only [hlive, if_pos]

/-! ## C1: Insert replaces a permanently failed entry -/

/-- C1: if the key's entry holds a permanently failed socket (`Failed()` and
not `HCEnabled()`), the next `Insert` for that key drops the old entry's
extra reference exactly once, erases the entry, calls the factory exactly
once, installs a fresh entry with `ref_count = 1`, and returns the new
socket's id, which is not the old one.  The hypotheses on `b` say the
factory call and `AddressFailedAsWell` succeed and the fresh socket is not
itself dead-without-HC (otherwise `Insert` bails out with -1). -/
theorem insert_replaces_failed_entry (socks : Socks) (m : SMap)
    (key : SocketMapKey) (sc : SingleConnection) (b : SocketId)
    (hseek : seek m key = some sc)
    (hfail : (socks sc.socket).failed = true)
    (hnohc : (socks sc.socket).hcEnabled = false)
    (haddr : (socks b).addressable = true)
    (hok : ((socks b).failed && !(socks b).hcEnabled) = false) :
    (SocketMap.Insert socks (some b) m key).rc = 0 ∧
    (SocketMap.Insert socks (some b) m key).id = some b ∧
    (SocketMap.Insert socks (some b) m key).id ≠ some sc.socket ∧
    (SocketMap.Insert socks (some b) m key).map =
      mapErase m key ++ [(key, { ref_count := 1, socket := b, no_ref_us := 0 })] ∧
    seek (SocketMap.Insert socks (some b) m key).map key =
      some { ref_count := 1, socket := b, no_ref_us := 0 } ∧
    releasesOf (SocketMap.Insert socks (some b) m key).events sc.socket = 1 ∧
    factoryCalls (SocketMap.Insert socks (some b) m key).events = 1 := by
  have hbne : b ≠ sc.socket := by
    intro h
    rw [h, hfail, hnohc] at hok
    simp at hok
  have h1 : SocketMap.Insert socks (some b) m key =
      { rc := 0, id := some b,
        map := mapErase m key ++
          [(key, { ref_count := 1, socket := b, no_ref_us := 0 })],
        events := [Event.lock, Event.releaseRef sc.socket,
            Event.factoryCreate b, Event.unlock] ++
          (if (socks b).hcEnabled then [Event.releaseRef b] else []) } := by
    rw [SocketMap.Insert, hseek]
    simp only [hfail, hnohc, Bool.not_true, Bool.or_false, Bool.false_eq_true,
      if_false]
    rw [SocketMap.ReleaseReference, hnohc]
    rw [insertCreate]
    simp only [haddr, Bool.not_true, Bool.false_eq_true, if_false, hok,
      List.cons_append, List.nil_append]
  refine ⟨by rw [h1], by rw [h1], ?_, by rw [h1], ?_, ?_, ?_⟩
  · rw [h1]
    simp [hbne]
  · rw [h1]
    rw [seek_append_of_none _ (seek_mapErase_self m key)]
    simp [seek]
  · rw [h1]
    cases hhc : (socks b).hcEnabled <;>
      simp [releasesOf, Event.isReleaseOf, List.filter, hhc,
        beq_eq_false_iff_ne.mpr hbne]
  · rw [h1]
    cases hhc : (socks b).hcEnabled <;>
      simp [factoryCalls, Event.isFactoryCreate, List.filter, hhc]

/-- An environment where every socket is live, HC-disabled and addressable. -/
def allLiveSocks : Socks :=
  fun _ => { failed := false, hcEnabled := false, addressable := true }

/-- An environment where socket 5 is permanently failed (failed, no HC) and
every other socket is live, HC-disabled and addressable. -/
def failed5Socks : Socks := fun i =>
  if i == 5 then { failed := true, hcEnabled := false, addressable := true }
  else { failed := false, hcEnabled := false, addressable := true }

/-- Witness for C3 at a concrete input: key 1 holds live socket 5 with
`ref_count = 2`; `Insert` bumps it to 3 and returns 5 twice. -/
theorem insert_live_shares_socket_witness :
    seek [(1, { ref_count := 2, socket := 5, no_ref_us := 0 })] 1 =
      some { ref_count := 2, socket := 5, no_ref_us := 0 } ∧
    (!(allLiveSocks 5).failed || (allLiveSocks 5).hcEnabled) = true ∧
    ((SocketMap.Insert allLiveSocks none
        [(1, { ref_count := 2, socket := 5, no_ref_us := 0 })] 1).rc = 0 ∧
     (SocketMap.Insert allLiveSocks none
        [(1, { ref_count := 2, socket := 5, no_ref_us := 0 })] 1).id = some 5 ∧
     seek (SocketMap.Insert allLiveSocks none
        [(1, { ref_count := 2, socket := 5, no_ref_us := 0 })] 1).map 1 =
       some { ref_count := 3, socket := 5, no_ref_us := 0 } ∧
     factoryCalls (SocketMap.Insert allLiveSocks none
        [(1, { ref_count := 2, socket := 5, no_ref_us := 0 })] 1).events = 0 ∧
     (SocketMap.Insert allLiveSocks none
        (SocketMap.Insert allLiveSocks none
          [(1, { ref_count := 2, socket := 5, no_ref_us := 0 })] 1).map 1).id =
       some 5) :=
  ⟨by rfl, by rfl,
    insert_live_shares_socket allLiveSocks none none _ 1 _ (by rfl) (by rfl)⟩

/-- Witness for C1 at a concrete input: key 1 holds permanently failed
socket 5; the factory yields socket 9.  The old reference is dropped once,
the factory runs once, and the new entry is `{1, 9, 0}`. -/
theorem insert_replaces_failed_entry_witness :
    seek [(1, { ref_count := 4, socket := 5, no_ref_us := 77 })] 1 =
      some { ref_count := 4, socket := 5, no_ref_us := 77 } ∧
    (failed5Socks 5).failed = true ∧
    (failed5Socks 5).hcEnabled = false ∧
    (failed5Socks 9).addressable = true ∧
    ((failed5Socks 9).failed && !(failed5Socks 9).hcEnabled) = false ∧
    ((SocketMap.Insert failed5Socks (some 9)
        [(1, { ref_count := 4, socket := 5, no_ref_us := 77 })] 1).rc = 0 ∧
     (SocketMap.Insert failed5Socks (some 9)
        [(1, { ref_count := 4, socket := 5, no_ref_us := 77 })] 1).id = some 9 ∧
     (SocketMap.Insert failed5Socks (some 9)
        [(1, { ref_count := 4, socket := 5, no_ref_us := 77 })] 1).id ≠ some 5 ∧
     (SocketMap.Insert failed5Socks (some 9)
        [(1, { ref_count := 4, socket := 5, no_ref_us := 77 })] 1).map =
       mapErase [(1, { ref_count := 4, socket := 5, no_ref_us := 77 })] 1 ++
         [(1, { ref_count := 1, socket := 9, no_ref_us := 0 })] ∧
     seek (SocketMap.Insert failed5Socks (some 9)
        [(1, { ref_count := 4, socket := 5, no_ref_us := 77 })] 1).map 1 =
       some { ref_count := 1, socket := 9, no_ref_us := 0 } ∧
     releasesOf (SocketMap.Insert failed5Socks (some 9)
        [(1, { ref_count := 4, socket := 5, no_ref_us := 77 })] 1).events 5 = 1 ∧
     factoryCalls (SocketMap.Insert failed5Socks (some 9)
        [(1, { ref_count := 4, socket := 5, no_ref_us := 77 })] 1).events = 1) :=
  ⟨by rfl, by rfl, by rfl, by rfl, by rfl,
    insert_replaces_failed_entry failed5Socks _ 1 _ 9 (by rfl) (by rfl)
      (by rfl) (by rfl) (by rfl)⟩

/-! ## C4: the zero-refcount paths of Remove, and orphan removal -/

/-- C4: when a non-orphan `Remove` drops the entry's `ref_count` to zero, the
behavior is decided by the single value of `defer_close_second` read inside
the call (here the `defer` argument, holding that one read): if it is
positive the entry is stamped with `no_ref_us = now` and left in the map with
no reference released; otherwise the entry is erased and both the additional
reference and the registry's extra reference are released.  Orphan removal
(`remove_orphan = true`) never decrements `ref_count` — an entry with nonzero
count is left exactly as it was — and erases a zero-count entry regardless of
the defer window. -/
theorem remove_zero_ref_paths (socks : Socks) (m : SMap) (key : SocketMapKey)
    (expected_id : SocketId) (defer now : Int) (sc : SingleConnection)
    (hseek : seek m key = some sc) :
    (sc.ref_count = 1 →
      (expected_id = INVALID_SOCKET_ID ∨ expected_id = sc.socket) →
      (0 < defer →
        (SocketMap.Remove socks m key expected_id defer now).map =
          mapUpdate m key { ref_count := 0, socket := sc.socket, no_ref_us := now } ∧
        (SocketMap.Remove socks m key expected_id defer now).events =
          [Event.lock, Event.unlock]) ∧
      (defer ≤ 0 →
        (SocketMap.Remove socks m key expected_id defer now).map =
          mapErase m key ∧
        (SocketMap.Remove socks m key expected_id defer now).events =
          [Event.lock, Event.unlock, Event.releaseAdditional sc.socket,
            SocketMap.ReleaseReference socks sc.socket])) ∧
    (sc.ref_count = 0 →
      (SocketMap.RemoveInternal socks m key expected_id true defer now).map =
        mapErase m key) ∧
    (sc.ref_count ≠ 0 →
      (SocketMap.RemoveInternal socks m key expected_id true defer now).map =
        mapUpdate m key sc ∧
      seek (SocketMap.RemoveInternal socks m key expected_id true defer now).map
        key = some sc) := by
  refine ⟨fun h1 hmatch => ?_, fun h0 => ?_, fun hnz => ?_⟩
  · have hcond : (expected_id == INVALID_SOCKET_ID ||
        expected_id == sc.socket) = true := by
      rcases hmatch with h | h <;> simp [h]
    constructor
    · intro hdef
      rw [SocketMap.Remove, SocketMap.RemoveInternal, hseek]
      simp only [Bool.not_false, Bool.true_and, hcond, if_pos, h1]
      norm_num
      rw [if_pos hdef]
      exact ⟨rfl, rfl⟩
    · intro hdef
      rw [SocketMap.Remove, SocketMap.RemoveInternal, hseek]
      simp only [Bool.not_false, Bool.true_and, hcond, if_pos, h1]
      norm_num
      rw [if_neg (by omega)]
      exact ⟨rfl, rfl⟩
  · rw [SocketMap.RemoveInternal, hseek]
    simp [h0]
  · have heq : (SocketMap.RemoveInternal socks m key expected_id
        true defer now).map = mapUpdate m key sc := by
      rw [SocketMap.RemoveInternal, hseek]
      simp [hnz]
    exact ⟨heq, heq ▸ seek_mapUpdate_self _ hseek⟩

/-- Witness for C4 at a concrete input: entry `{1, 5, 50}` under key 1,
matching `expected_id = 5`, defer snapshot 2, clock 123. -/
theorem remove_zero_ref_paths_witness :
    seek [(1, { ref_count := 1, socket := 5, no_ref_us := 50 })] 1 =
      some { ref_count := 1, socket := 5, no_ref_us := 50 } ∧
    (((1 : Int) = 1 →
      ((5 : SocketId) = INVALID_SOCKET_ID ∨ (5 : SocketId) = 5) →
      ((0 : Int) < 2 →
        (SocketMap.Remove allLiveSocks
            [(1, { ref_count := 1, socket := 5, no_ref_us := 50 })] 1 5 2 123).map =
          mapUpdate [(1, { ref_count := 1, socket := 5, no_ref_us := 50 })] 1
            { ref_count := 0, socket := 5, no_ref_us := 123 } ∧
        (SocketMap.Remove allLiveSocks
            [(1, { ref_count := 1, socket := 5, no_ref_us := 50 })] 1 5 2 123).events =
          [Event.lock, Event.unlock]) ∧
      ((2 : Int) ≤ 0 →
        (SocketMap.Remove allLiveSocks
            [(1, { ref_count := 1, socket := 5, no_ref_us := 50 })] 1 5 2 123).map =
          mapErase [(1, { ref_count := 1, socket := 5, no_ref_us := 50 })] 1 ∧
        (SocketMap.Remove allLiveSocks
            [(1, { ref_count := 1, socket := 5, no_ref_us := 50 })] 1 5 2 123).events =
          [Event.lock, Event.unlock, Event.releaseAdditional 5,
            SocketMap.ReleaseReference allLiveSocks 5])) ∧
    ((1 : Int) = 0 →
      (SocketMap.RemoveInternal allLiveSocks
          [(1, { ref_count := 1, socket := 5, no_ref_us := 50 })] 1 5 true 2 123).map =
        mapErase [(1, { ref_count := 1, socket := 5, no_ref_us := 50 })] 1) ∧
    ((1 : Int) ≠ 0 →
      (SocketMap.RemoveInternal allLiveSocks
          [(1, { ref_count := 1, socket := 5, no_ref_us := 50 })] 1 5 true 2 123).map =
        mapUpdate [(1, { ref_count := 1, socket := 5, no_ref_us := 50 })] 1
          { ref_count := 1, socket := 5, no_ref_us := 50 } ∧
      seek (SocketMap.RemoveInternal allLiveSocks
          [(1, { ref_count := 1, socket := 5, no_ref_us := 50 })] 1 5 true 2 123).map 1 =
        some { ref_count := 1, socket := 5, no_ref_us := 50 })) :=
  ⟨by rfl,
    remove_zero_ref_paths allLiveSocks
      [(1, { ref_count := 1, socket := 5, no_ref_us := 50 })] 1 5 2 123
      { ref_count := 1, socket := 5, no_ref_us := 50 } (by rfl)⟩

/-! ## C6: Remove with a stale expected_id -/

/-- Counterexample to C6: key 1 holds entry `{0, 5, 100}` (zero refcount,
inside a defer window).  A `Remove` whose `expected_id = 7` matches neither
`INVALID_SOCKET_ID` nor the entry's socket id 5 skips the decrement, but the
entry's `ref_count` is already 0, so the zero-ref handling still runs: with
the defer snapshot at 0 the entry is erased — the claim says such a `Remove`
makes no change. -/
theorem remove_mismatch_changes_zero_ref_entry :
    (7 : SocketId) ≠ INVALID_SOCKET_ID ∧ (7 : SocketId) ≠ 5 ∧
    seek [(1, { ref_count := 0, socket := 5, no_ref_us := 100 })] 1 =
      some { ref_count := 0, socket := 5, no_ref_us := 100 } ∧
    (SocketMap.Remove allLiveSocks
        [(1, { ref_count := 0, socket := 5, no_ref_us := 100 })] 1 7 0 42).map =
      [] :=
  ⟨by decide, by decide, by rfl, by rfl⟩

/-- C6 amended: for a present entry whose `ref_count` is nonzero, a `Remove`
with an `expected_id` that is neither `INVALID_SOCKET_ID` nor the entry's
socket id makes no change: the entry keeps its exact value, every other key
is untouched, and nothing is released.  (When `ref_count` is already zero
the zero-ref handling still runs, as the counterexample shows.) -/
theorem remove_mismatch_nonzero_unchanged (socks : Socks) (m : SMap)
    (key : SocketMapKey) (expected_id : SocketId) (defer now : Int)
    (sc : SingleConnection) (hseek : seek m key = some sc)
    (hinv : expected_id ≠ INVALID_SOCKET_ID)
    (hne : expected_id ≠ sc.socket)
    (hnz : sc.ref_count ≠ 0) :
    (SocketMap.Remove socks m key expected_id defer now).map =
      mapUpdate m key sc ∧
    seek (SocketMap.Remove socks m key expected_id defer now).map key =
      some sc ∧
    (∀ k', k' ≠ key →
      seek (SocketMap.Remove socks m key expected_id defer now).map k' =
        seek m k') ∧
    (SocketMap.Remove socks m key expected_id defer now).events =
      [Event.lock, Event.unlock] := by
  have heq : SocketMap.Remove socks m key expected_id defer now =
      { map := mapUpdate m key sc, events := [Event.lock, Event.unlock] } := by
    rw [SocketMap.Remove, SocketMap.RemoveInternal, hseek]
    dsimp only
    rw [if_neg (by simp [hinv, hne, hnz])]
    rw [if_neg (by
      simp only [Bool.not_false, Bool.true_and, Bool.or_eq_true, beq_iff_eq,
        not_or]
      exact ⟨hinv, hne⟩)]
  refine ⟨by rw [heq], ?_, ?_, by rw [heq]⟩
  · rw [heq]
    exact seek_mapUpdate_self _ hseek
  · intro k' hk'
    rw [heq]
    exact seek_mapUpdate_ne _ hk'

/-- Witness for the amended C6 at a concrete input: entry `{3, 5, 100}`,
stale `expected_id = 7`. -/
theorem remove_mismatch_nonzero_unchanged_witness :
    seek [(1, { ref_count := 3, socket := 5, no_ref_us := 100 })] 1 =
      some { ref_count := 3, socket := 5, no_ref_us := 100 } ∧
    (7 : SocketId) ≠ INVALID_SOCKET_ID ∧
    (7 : SocketId) ≠ 5 ∧
    (3 : Int) ≠ 0 ∧
    ((SocketMap.Remove allLiveSocks
        [(1, { ref_count := 3, socket := 5, no_ref_us := 100 })] 1 7 2 42).map =
      mapUpdate [(1, { ref_count := 3, socket := 5, no_ref_us := 100 })] 1
        { ref_count := 3, socket := 5, no_ref_us := 100 } ∧
     seek (SocketMap.Remove allLiveSocks
        [(1, { ref_count := 3, socket := 5, no_ref_us := 100 })] 1 7 2 42).map 1 =
       some { ref_count := 3, socket := 5, no_ref_us := 100 } ∧
     (∀ k', k' ≠ 1 →
       seek (SocketMap.Remove allLiveSocks
          [(1, { ref_count := 3, socket := 5, no_ref_us := 100 })] 1 7 2 42).map k' =
         seek [(1, { ref_count := 3, socket := 5, no_ref_us := 100 })] k') ∧
     (SocketMap.Remove allLiveSocks
        [(1, { ref_count := 3, socket := 5, no_ref_us := 100 })] 1 7 2 42).events =
       [Event.lock, Event.unlock]) :=
  ⟨by rfl, by decide, by decide, by decide,
    remove_mismatch_nonzero_unchanged allLiveSocks
      [(1, { ref_count := 3, socket := 5, no_ref_us := 100 })] 1 7 2 42
      { ref_count := 3, socket := 5, no_ref_us := 100 }
      (by rfl) (by decide) (by decide) (by decide)⟩

/-! ## C5: reference releases vs. the mutex -/

/-- Counterexample to C5: in the permanent-failure replacement path of
`Insert`, `ReleaseReference(sc->socket)` runs while `_mutex` is still held —
the old entry's reference drop (`releaseRef 5`) appears in the trace before
the `unlock`, so not every registry release happens after unlocking. -/
theorem insert_replacement_releases_under_lock :
    (SocketMap.Insert failed5Socks (some 9)
        [(1, { ref_count := 0, socket := 5, no_ref_us := 0 })] 1).events =
      [Event.lock, Event.releaseRef 5, Event.factoryCreate 9, Event.unlock] ∧
    noReleaseBeforeUnlock (SocketMap.Insert failed5Socks (some 9)
        [(1, { ref_count := 0, socket := 5, no_ref_us := 0 })] 1).events =
      false :=
  ⟨by rfl, by rfl⟩

/-- C5 amended: in the `Remove`/`RemoveInternal` path the claim holds — for
every input, no reference is released before the mutex is unlocked (the
erase branch unlocks first and only then calls `ReleaseAdditionalReference`
and `ReleaseReference`).  In `Insert`'s permanent-failure replacement path,
by contrast, the old entry's reference is released while the mutex is held,
as the counterexample shows. -/
theorem remove_releases_after_unlock (socks : Socks) (m : SMap)
    (key : SocketMapKey) (expected_id : SocketId) (remove_orphan : Bool)
    (defer now : Int) :
    noReleaseBeforeUnlock
      (SocketMap.RemoveInternal socks m key expected_id remove_orphan
        defer now).events = true := by
  rw [SocketMap.RemoveInternal]
  cases seek m key with
  | none => rfl
  | some sc0 =>
    dsimp only
    repeat' split
    all_goals rfl

/-! ## C8: destructor diagnostics -/

/-- Counterexample to C8: an entry whose socket is *not* permanently dead
(socket 5 is not failed under `allLiveSocks`) but whose `ref_count` is 0.
The claim says the destructor logs a diagnostic for it; the destructor's
condition is `(!Failed() || HCEnabled()) && ref_count != 0`, so the entry is
skipped and nothing is logged. -/
theorem destructor_skips_live_zero_ref_entry :
    (allLiveSocks 5).failed = false ∧
    SocketMap.destructorLogged allLiveSocks
      [(1, { ref_count := 0, socket := 5, no_ref_us := 0 })] = [] :=
  ⟨by rfl, by rfl⟩

/-- C8 amended: on destruction (after stopping and joining the reaper) a
diagnostic is logged exactly for the remaining entries whose socket is not
permanently dead AND whose `ref_count` is nonzero; an entry is skipped
whenever it is permanently dead OR its `ref_count` is 0. -/
theorem destructorLogged_mem_iff (socks : Socks) (m : SMap)
    (e : SocketMapKey × SingleConnection) :
    e ∈ SocketMap.destructorLogged socks m ↔
      e ∈ m ∧
        ((socks e.2.socket).failed = false ∨
          (socks e.2.socket).hcEnabled = true) ∧
        e.2.ref_count ≠ 0 := by
  simp only [SocketMap.destructorLogged, List.mem_filter, Bool.and_eq_true,
    Bool.or_eq_true, Bool.not_eq_true', bne_iff_ne, ne_eq]

/-! ## C2: the ref_count ≥ 0 invariant -/

/-- Counterexample to C2: `Insert(1)` (refcount 1), then `Remove(1)` with the
defer window open (refcount 0, entry stays stamped), then a second public
`Remove(1)` — the decrement is unconditional, so the entry's `ref_count`
drops to -1 and the entry stays in the map. -/
theorem remove_drives_refcount_negative :
    seek (SocketMap.Remove allLiveSocks
        (SocketMap.Remove allLiveSocks
          (SocketMap.Insert allLiveSocks (some 5) [] 1).map
          1 INVALID_SOCKET_ID 1 10).map
        1 INVALID_SOCKET_ID 1 11).map 1 =
      some { ref_count := -1, socket := 5, no_ref_us := 10 } ∧
    (-1 : Int) < 0 :=
  ⟨by rfl, by decide⟩

/-- Entries of the map produced by the creation half of `Insert` are either
entries of the incoming map or the freshly installed entry with
`ref_count = 1`. -/
theorem insertCreate_map_mem {socks : Socks} {factory : Option SocketId}
    {m' : SMap} {key : SocketMapKey} {evs : List Event}
    {e : SocketMapKey × SingleConnection}
    (h : e ∈ (insertCreate socks factory m' key evs).map) :
    e ∈ m' ∨ e.2.ref_count = 1 := by
  rw [insertCreate.eq_def] at h
  cases factory with
  | none => exact Or.inl h
  | some tmp_id =>
    dsimp only at h
    split at h
    · exact Or.inl h
    · split at h
      · exact Or.inl h
      · rcases List.mem_append.mp h with h | h
        · exact Or.inl h
        · right
          have : e = (key, { ref_count := 1, socket := tmp_id, no_ref_us := 0 }) := by
            simpa using h
          rw [this]

/-- All entries of a map have nonnegative `ref_count`. -/
abbrev RefNonneg (m : SMap) : Prop := ∀ e ∈ m, (0 : Int) ≤ e.2.ref_count

/-- C2 amended: `Find`, `List` and `ListOrphans` return values without
producing a new map, so only `Insert` and `Remove`/`RemoveInternal` can
change an entry.  Starting from a map whose entries all have
`ref_count ≥ 0`, any `Insert` preserves that, and a `RemoveInternal`
preserves it provided its decrement is balanced: whenever it is a non-orphan
call whose `expected_id` matches the present entry (or is the
`INVALID_SOCKET_ID` sentinel), that entry's `ref_count` is still positive.
An unmatched extra `Remove` on an entry already at `ref_count = 0` violates
the invariant, driving the count to -1 (see the counterexample). -/
theorem refcount_nonneg_preserved (m : SMap) (hm : RefNonneg m) :
    (∀ socks factory key,
      RefNonneg (SocketMap.Insert socks factory m key).map) ∧
    (∀ socks key expected_id remove_orphan defer now,
      (∀ sc, remove_orphan = false → seek m key = some sc →
        (expected_id = INVALID_SOCKET_ID ∨ expected_id = sc.socket) →
        0 < sc.ref_count) →
      RefNonneg (SocketMap.RemoveInternal socks m key expected_id
        remove_orphan defer now).map) := by
  constructor
  · intro socks factory key e he
    rw [SocketMap.Insert] at he
    cases hs : seek m key with
    | none =>
        rw [hs] at he
        rcases insertCreate_map_mem he with h | h
        · exact hm e h
        · omega
    | some sc =>
        rw [hs] at he
        dsimp only at he
        split at he
        · rcases mem_mapUpdate he with h | h
          · exact hm e h
          · have h0 : (0 : Int) ≤ sc.ref_count := hm _ (seek_mem hs)
            rw [h]
            dsimp only
            omega
        · rcases insertCreate_map_mem he with h | h
          · exact hm e (mem_mapErase h)
          · omega
  · intro socks key expected_id remove_orphan defer now hbal e he
    rw [SocketMap.RemoveInternal] at he
    cases hs : seek m key with
    | none => rw [hs] at he; exact hm e he
    | some sc0 =>
        rw [hs] at he
        dsimp only at he
        have h0 : (0 : Int) ≤ sc0.ref_count := hm _ (seek_mem hs)
        by_cases hdec : (!remove_orphan &&
            (expected_id == INVALID_SOCKET_ID || expected_id == sc0.socket))
            = true
        · have horph : remove_orphan = false := by
            cases remove_orphan
            · rfl
            · simp at hdec
          have hmatch : expected_id = INVALID_SOCKET_ID ∨
              expected_id = sc0.socket := by
            rw [horph] at hdec
            simpa using hdec
          have hpos : 0 < sc0.ref_count := hbal sc0 horph hs hmatch
          rw [if_pos hdec] at he
          split at he
          · split at he
            · rcases mem_mapUpdate he with h | h
              · exact hm e h
              · rw [h]; dsimp only; omega
            · exact hm e (mem_mapErase he)
          · rcases mem_mapUpdate he with h | h
            · exact hm e h
            · rw [h]; dsimp only; omega
        · rw [if_neg hdec] at he
          split at he
          · split at he
            · rcases mem_mapUpdate he with h | h
              · exact hm e h
              · rw [h]; dsimp only; omega
            · exact hm e (mem_mapErase he)
          · rcases mem_mapUpdate he with h | h
            · exact hm e h
            · rw [h]; exact h0

/-- Witness for the amended C2 at a concrete map with one entry of
`ref_count = 2`. -/
theorem refcount_nonneg_preserved_witness :
    RefNonneg [(1, { ref_count := 2, socket := 5, no_ref_us := 0 })] ∧
    ((∀ socks factory key,
      RefNonneg (SocketMap.Insert socks factory
        [(1, { ref_count := 2, socket := 5, no_ref_us := 0 })] key).map) ∧
     (∀ socks key expected_id remove_orphan defer now,
      (∀ sc, remove_orphan = false →
        seek [(1, { ref_count := 2, socket := 5, no_ref_us := 0 })] key =
          some sc →
        (expected_id = INVALID_SOCKET_ID ∨ expected_id = sc.socket) →
        0 < sc.ref_count) →
      RefNonneg (SocketMap.RemoveInternal socks
        [(1, { ref_count := 2, socket := 5, no_ref_us := 0 })] key expected_id
        remove_orphan defer now).map)) :=
  ⟨by decide,
    refcount_nonneg_preserved [(1, { ref_count := 2, socket := 5, no_ref_us := 0 })]
      (by decide)⟩

/-! ## C10: failed Init is not rolled back -/

/-- With a non-null stored factory, `Init` always reports
`alreadyInitialized`. -/
theorem init_already_of_some {st : SMState} {f : Nat}
    (h : st.options.socket_creator = some f) (opts : SocketMapOptions)
    (a b : Bool) :
    (SocketMap.Init st opts a b).1 = InitResult.alreadyInitialized := by
  rw [SocketMap.Init, if_pos (by simp [h])]

/-- With a null stored factory, `Init` never reports `alreadyInitialized`. -/
theorem init_not_already_of_none {st : SMState}
    (h : st.options.socket_creator = none) (opts : SocketMapOptions)
    (a b : Bool) :
    (SocketMap.Init st opts a b).1 ≠ InitResult.alreadyInitialized := by
  rw [SocketMap.Init, if_neg (by simp [h])]
  dsimp only
  split
  · simp
  · split
    · simp
    · split
      · split <;> simp
      · simp

/-- With a null stored factory, valid options, a successful map init and no
reaper required, `Init` succeeds. -/
theorem init_ok_of_none {st : SMState}
    (h : st.options.socket_creator = none) {opts : SocketMapOptions}
    (hf : opts.socket_creator.isSome = true)
    (hd : opts.idle_timeout_second_dynamic = false)
    (hi : opts.idle_timeout_second ≤ 0) (b : Bool) :
    (SocketMap.Init st opts true b).1 = InitResult.ok := by
  rw [SocketMap.Init, if_neg (by simp [h])]
  dsimp only
  rw [if_neg (by simp [Option.isNone_iff_eq_none]; intro hn; rw [hn] at hf; simp at hf)]
  rw [if_neg (by simp)]
  rw [if_neg (by simp [hd]; omega)]

/-- C10: an `Init` that fails while sizing the map or spawning the reaper has
already stored the non-null factory, so every subsequent `Init` on the same
registry reports `alreadyInitialized`; an `Init` that failed for lack of a
factory leaves the stored factory null, so the registry stays
re-initializable (a later `Init` never reports `alreadyInitialized`, and
succeeds for valid options). -/
theorem init_failure_latch (st : SMState) (opts : SocketMapOptions)
    (mapOk spawnOk : Bool) :
    (((SocketMap.Init st opts mapOk spawnOk).1 = InitResult.mapInitFailed ∨
      (SocketMap.Init st opts mapOk spawnOk).1 = InitResult.spawnFailed) →
      ∀ opts2 mapOk2 spawnOk2,
        (SocketMap.Init (SocketMap.Init st opts mapOk spawnOk).2 opts2
          mapOk2 spawnOk2).1 = InitResult.alreadyInitialized) ∧
    ((SocketMap.Init st opts mapOk spawnOk).1 = InitResult.missingFactory →
      (SocketMap.Init st opts mapOk spawnOk).2.options.socket_creator = none ∧
      (∀ opts2 mapOk2 spawnOk2,
        (SocketMap.Init (SocketMap.Init st opts mapOk spawnOk).2 opts2
          mapOk2 spawnOk2).1 ≠ InitResult.alreadyInitialized) ∧
      (∀ opts2 spawnOk2, opts2.socket_creator.isSome = true →
        opts2.idle_timeout_second_dynamic = false →
        opts2.idle_timeout_second ≤ 0 →
        (SocketMap.Init (SocketMap.Init st opts mapOk spawnOk).2 opts2
          true spawnOk2).1 = InitResult.ok)) := by
  cases hc : st.options.socket_creator with
  | some f =>
    have hr : SocketMap.Init st opts mapOk spawnOk =
        (InitResult.alreadyInitialized, st) := by
      rw [SocketMap.Init, if_pos (by simp [hc])]
    rw [hr]
    exact ⟨by rintro (h | h) <;> simp at h, by intro h; simp at h⟩
  | none =>
    cases ho : opts.socket_creator with
    | none =>
      have hr : SocketMap.Init st opts mapOk spawnOk =
          (InitResult.missingFactory, { st with options := opts }) := by
        rw [SocketMap.Init, if_neg (by simp [hc])]
        dsimp only
        rw [if_pos (by simp [ho])]
      rw [hr]
      refine ⟨by rintro (h | h) <;> simp at h, fun _ => ⟨by simp [ho], ?_, ?_⟩⟩
      · intro opts2 a2 b2
        exact init_not_already_of_none (by simp [ho]) opts2 a2 b2
      · intro opts2 b2 hf hd hi
        exact init_ok_of_none (by simp [ho]) hf hd hi b2
    | some f =>
      have hsome : ({ st with options := opts } : SMState).options.socket_creator
          = some f := by simp [ho]
      cases mapOk with
      | false =>
        have hr : SocketMap.Init st opts false spawnOk =
            (InitResult.mapInitFailed, { st with options := opts }) := by
          rw [SocketMap.Init, if_neg (by simp [hc])]
          dsimp only
          rw [if_neg (by simp [ho]), if_pos (by rfl)]
        rw [hr]
        refine ⟨fun _ opts2 a2 b2 => init_already_of_some hsome opts2 a2 b2,
          by intro h; simp at h⟩
      | true =>
        by_cases hidle : (opts.idle_timeout_second_dynamic ||
            decide (opts.idle_timeout_second > 0)) = true
        · cases spawnOk with
          | false =>
            have hr : SocketMap.Init st opts true false =
                (InitResult.spawnFailed, { st with options := opts }) := by
              rw [SocketMap.Init, if_neg (by simp [hc])]
              dsimp only
              rw [if_neg (by simp [ho]), if_neg (by simp), if_pos hidle,
                if_pos (by rfl)]
            rw [hr]
            refine ⟨fun _ opts2 a2 b2 => init_already_of_some hsome opts2 a2 b2,
              by intro h; simp at h⟩
          | true =>
            have hr : SocketMap.Init st opts true true =
                (InitResult.ok,
                  { { st with options := opts } with
                      has_close_idle_thread := true }) := by
              rw [SocketMap.Init, if_neg (by simp [hc])]
              dsimp only
              rw [if_neg (by simp [ho]), if_neg (by simp), if_pos hidle,
                if_neg (by simp)]
            rw [hr]
            exact ⟨by rintro (h | h) <;> simp at h, by intro h; simp at h⟩
        · have hr : SocketMap.Init st opts true spawnOk =
              (InitResult.ok, { st with options := opts }) := by
            rw [SocketMap.Init, if_neg (by simp [hc])]
            dsimp only
            rw [if_neg (by simp [ho]), if_neg (by simp), if_neg hidle]
          rw [hr]
          exact ⟨by rintro (h | h) <;> simp at h, by intro h; simp at h⟩

/-- Options with a non-null factory and no reaper requirement. -/
def optsA : SocketMapOptions :=
  { socket_creator := some 3,
    idle_timeout_second_dynamic := false,
    idle_timeout_second := 0 }

/-- Witness for C10 at a concrete input: a fresh registry whose first `Init`
fails sizing the map (`mapOk = false`); the next `Init` reports
`alreadyInitialized`. -/
theorem init_failure_latch_witness :
    ((SocketMap.Init SMState.fresh optsA false true).1 =
        InitResult.mapInitFailed ∨
     (SocketMap.Init SMState.fresh optsA false true).1 =
        InitResult.spawnFailed) ∧
    (SocketMap.Init (SocketMap.Init SMState.fresh optsA false true).2 optsA
      true true).1 = InitResult.alreadyInitialized :=
  ⟨Or.inl (by rfl),
    (init_failure_latch SMState.fresh optsA false true).1 (Or.inl (by rfl))
      optsA true true⟩
